import Mathlib

/-!
Verification development for the obs-bot GitHub helper
(`src/obsbot/cogs/public/utils/github.py`, class `GitHubHelper`).

The Python module is shallowly embedded below: every pure computation of the
source is translated to an executable Lean definition, and each effectful
method is modelled as a function that takes its network interactions as an
explicit oracle argument and returns, besides the Python return value, the
updated mutable state and the list of HTTP requests it issued.  Timestamps
(`time.time()`, parsed ISO dates) are modelled as integer seconds.
-/

set_option autoImplicit false

namespace ObsBot

/-! ### Python string primitives used by the source -/

/-- Auxiliary worker for `pySplitlines`: scans the character list, `acc` holds
the current (reversed) line. Recognises the line boundaries `\r\n`, `\r` and
`\n`, which are the boundaries occurring in the payloads the source handles. -/
def splitlinesAux : List Char → List Char → List String
  | [], [] => []
  | [], acc => [String.mk acc.reverse]
  | '\r' :: '\n' :: rest, acc => String.mk acc.reverse :: splitlinesAux rest []
  | '\r' :: rest, acc => String.mk acc.reverse :: splitlinesAux rest []
  | '\n' :: rest, acc => String.mk acc.reverse :: splitlinesAux rest []
  | c :: rest, acc => splitlinesAux rest (c :: acc)

/-- Python `str.splitlines()`: no trailing empty line, `"".splitlines() = []`. -/
def pySplitlines (s : String) : List String :=
  splitlinesAux s.toList []

/-- Characters stripped by Python `str.strip()` (ASCII whitespace). -/
def isPyWs (c : Char) : Bool :=
  c = ' ' || c = '\t' || c = '\n' || c = '\r' || c = '\x0b' || c = '\x0c'

/-- Python `str.strip()`: remove leading and trailing whitespace. -/
def pyStrip (s : String) : String :=
  String.mk (((s.toList.dropWhile isPyWs).reverse.dropWhile isPyWs).reverse)

/-- Does the first character list start with the second one? -/
def startsWithList : List Char → List Char → Bool
  | _, [] => true
  | [], _ :: _ => false
  | c :: cs, d :: ds => c == d && startsWithList cs ds

/-- Does the first character list contain the second one as a contiguous run? -/
def containsList : List Char → List Char → Bool
  | [], needle => needle.isEmpty
  | c :: rest, needle => startsWithList (c :: rest) needle || containsList rest needle

/-- Python `needle in hay` on strings: substring containment. -/
def pyContains (hay needle : String) : Bool :=
  containsList hay.toList needle.toList

/-- Python `s.startswith(pre)`. -/
def pyStartsWith (s pre : String) : Bool :=
  startsWithList s.toList pre.toList

/-- Auxiliary worker for `pySplitChar`: split at every occurrence of `sep`. -/
def splitCharAux (sep : Char) : List Char → List Char → List String
  | [], acc => [String.mk acc.reverse]
  | c :: rest, acc =>
      if c = sep then String.mk acc.reverse :: splitCharAux sep rest []
      else splitCharAux sep rest (c :: acc)

/-- Python `s.split(sep)` for a one-character separator: keeps empty pieces,
`"".split(sep) = [""]`. -/
def pySplitChar (sep : Char) (s : String) : List String :=
  splitCharAux sep s.toList []

/-- Python `s.rpartition('/')[2]`: the part after the last slash, or the whole
string when no slash occurs. -/
def pyAfterLastSlash (s : String) : String :=
  (pySplitChar '/' s).getLastD s

/-! ### JSON values and `get_with_retry` (source lines 210-222)

`aiohttp`'s `r.json()` parses a JSON document into a Python value; the JSON
literal `null` parses to Python `None`, which is also the value
`get_with_retry` returns once its retries are exhausted.  The embedding keeps
this identification: `PyJson.null` stands for Python `None` and for parsed
JSON `null` alike. -/

inductive PyJson where
  | null : PyJson
  | bool (b : Bool) : PyJson
  | num (n : Int) : PyJson
  | str (s : String) : PyJson
  | arr (xs : List PyJson) : PyJson
  | obj (kvs : List (String × PyJson)) : PyJson

/-- Default retry count of `get_with_retry` (`retries=5`). -/
def defaultRetries : Nat := 5

/-- Default wait after a failed attempt, in seconds (`retry_interval=5.0`). -/
def defaultRetryInterval : Nat := 5

/-- One loop iteration block of `get_with_retry`, starting at attempt index
`i` with `n` attempts left.  `attempt i = some v` models attempt `i`
succeeding with parsed body `v`; `attempt i = none` models the GET (or its
`raise_for_status`) raising.  The result carries the Python return value, the
number of GET attempts issued and the number of `asyncio.sleep` calls (each of
`retry_interval` seconds, one after every failed attempt). -/
def getWithRetryAux (attempt : Nat → Option PyJson) (i : Nat) :
    Nat → PyJson × Nat × Nat
  | 0 => (PyJson.null, 0, 0)
  | n + 1 =>
      match attempt i with
      | some v => (v, 1, 0)
      | none =>
          let r := getWithRetryAux attempt (i + 1) n
          (r.1, r.2.1 + 1, r.2.2 + 1)

/-- `get_with_retry(url, params, retries, retry_interval)`: loops over
`range(retries)`, returning the first successful `r.json()` value; after the
last failure it logs and returns Python `None` (`PyJson.null`). -/
def getWithRetry (attempt : Nat → Option PyJson) (retries : Nat) :
    PyJson × Nat × Nat :=
  getWithRetryAux attempt 0 retries

/-! ### Configuration (`self.config` keys used by the source) -/

structure Config where
  commit_truncation_limit : Nat
  workflow_id : String
  github_api_auth : String
  emotePassed : String
  emotePart : String
  emoteFailed : String
deriving DecidableEq

/-! ### Author cache and `get_author_info` (source lines 224-241) -/

/-- A GitHub user object as consumed by `get_commit_messages`: the fields the
source reads (`name` may be JSON `null`, hence `Option`). -/
structure Profile where
  name : Option String
  login : String
  html_url : String
  avatar_url : String
deriving DecidableEq

/-- `self.user_cache`: a Python dict keyed by the username argument (which can
be `None`), holding the fetched profile plus the `_timestamp` added on
insertion.  Modelled as an association list, most recent binding first. -/
abbrev AuthorCache : Type := List (Option String × Profile × Int)

/-- Dict lookup `self.user_cache[username]` / `in`-test. -/
def cacheLookup (cache : AuthorCache) (k : Option String) :
    Option (Profile × Int) :=
  match cache with
  | [] => none
  | (k2, e) :: rest => if k2 = k then some e else cacheLookup rest k

/-- Dict store `self.user_cache[username] = ...` (overwrite). -/
def cacheStore (cache : AuthorCache) (k : Option String) (e : Profile × Int) :
    AuthorCache :=
  (k, e) :: (cache : List _).filter (fun p => !(p.1 = k : Bool))

/-- `self.user_cache_max_age = 3600 * 24 * 7` (seconds). -/
def userCacheMaxAge : Int := 3600 * 24 * 7

/-- The `try`-block of `get_author_info`: one GET for the user profile (no
retry loop).  `fetchUser u = some p` models the request succeeding with a
well-formed user object; `none` models `session.get`/`r.json()` raising, in
which case the method falls back to whatever the cache holds.  Returns the
Python return value, the cache afterwards, and the list of profile GET
requests issued (here: exactly one). -/
def getAuthorFetch (fetchUser : Option String → Option Profile) (now : Int)
    (cache : AuthorCache) (username : Option String) :
    Option (Profile × Int) × AuthorCache × List (Option String) :=
  match fetchUser username with
  | some author =>
      let entry : Profile × Int := (author, now)
      (some entry, cacheStore cache username entry, [username])
  | none => (cacheLookup cache username, cache, [username])

/-- `get_author_info(username)` (source lines 224-241), literally: when
`username` is a cache key and `time.time() - entry['_timestamp'] >
user_cache_max_age` the cached entry is returned with no request; otherwise
the method issues one GET and on success overwrites the cache entry with the
fresh data and the current timestamp, falling back to the cached entry (or
`None`) when the request raises. -/
def getAuthorInfo (fetchUser : Option String → Option Profile) (now : Int)
    (cache : AuthorCache) (username : Option String) :
    Option (Profile × Int) × AuthorCache × List (Option String) :=
  match cacheLookup cache username with
  | some entry =>
      if now - entry.2 > userCacheMaxAge then (some entry, cache, [])
      else getAuthorFetch fetchUser now cache username
  | none => getAuthorFetch fetchUser now cache username

/-! ### Discord embeds (the message descriptors the formatter produces) -/

/-- The parts of `discord.Embed` the source sets.  `Embed(...)` keyword
arguments, `set_author`, `set_footer` and `add_field` all become record
fields; `embed.copy()` is plain value copying. -/
structure Embed where
  title : Option String
  description : Option String
  url : Option String
  colour : Option Nat
  timestamp : Option Int
  author_name : Option String
  author_url : Option String
  author_icon : Option String
  footer_text : Option String
  fields : List (String × String × Bool)
deriving DecidableEq

/-- An embed with nothing set, the starting point of every construction. -/
def Embed.empty : Embed :=
  { title := none, description := none, url := none, colour := none,
    timestamp := none, author_name := none, author_url := none,
    author_icon := none, footer_text := none, fields := [] }

/-- Class attribute colour constants of `GitHubHelper`. -/
def commitColour : Nat := 0xffffff

def skippedCommitColour : Nat := 0x9b9b9b

def pullRequestColour : Nat := 0x366d6

def issueColour : Nat := 0x2CBE4E

def ciFailedColour : Nat := 0xd0021b

def ciSomeFailedColour : Nat := 0xF5A623

def ciPassedColour : Nat := 0x7ED321

/-! ### Commit message formatting, `get_commit_messages` (source lines 30-76) -/

/-- One element of the push payload's `commits` array, restricted to the
fields the source reads.  `timestamp` is the already-parsed commit time;
`author_username`/`author_name` model `commit['author'].get('username'/'name',
None)`. -/
structure Commit where
  id : String
  message : String
  timestamp : Int
  url : String
  author_username : Option String
  author_name : Option String
deriving DecidableEq

/-- Fallback commit for (never taken) out-of-range list accesses. -/
def defaultCommit : Commit :=
  { id := "", message := "", timestamp := 0, url := "",
    author_username := none, author_name := none }

/-- The push event fields read by `get_commit_messages`. -/
structure PushEvent where
  ref : String
  full_name : String
  commits : List Commit
deriving DecidableEq

/-- The synthetic "Skipped N commits..." embed (source lines 40-41). -/
def mkSkipEmbed (nCommits : Nat) (compare_url : String) : Embed :=
  { Embed.empty with
      title := some ("Skipped " ++ toString (nCommits - 1) ++
        " commits... (click link for diff)"),
      colour := some skippedCommitColour,
      url := some compare_url }

/-- The compare URL of the skip embed (source line 39):
`f'https://github.com/{project}/compare/{first_hash}^...{last_hash}'`. -/
def compareUrl (project first_hash last_hash : String) : String :=
  "https://github.com/" ++ project ++ "/compare/" ++ first_hash ++ "^..." ++
    last_hash

/-- The per-commit embed of the loop body (source lines 45-74), given the
value `author` that `get_author_info` returned for this commit. -/
def commitEmbed (brief : Bool) (project branch : String) (c : Commit)
    (author : Option (Profile × Int)) : Embed :=
  let commit_message := pySplitChar '\n' c.message
  let e0 : Embed :=
    { Embed.empty with
        title := some (commit_message.headD ""),
        colour := some commitColour,
        url := some c.url,
        timestamp := some c.timestamp }
  let e1 : Embed :=
    if commit_message.length > 2 && !brief then
      { e0 with
          description :=
            some (String.intercalate "\n" (commit_message.drop 2)) }
    else e0
  let e2 : Embed :=
    match author with
    | some (p, _) =>
        let author_name :=
          match p.name with
          | some n => if n != "" && n != p.login
              then n ++ " (" ++ p.login ++ ")" else p.login
          | none => p.login
        { e1 with
            author_name := some author_name,
            author_url := some p.html_url,
            author_icon := some p.avatar_url }
    | none =>
        match c.author_name with
        | some nm =>
            if nm != "" then { e1 with author_name := some nm }
            else { e1 with author_name := some "<No Name>" }
        | none => { e1 with author_name := some "<No Name>" }
  { e2 with
      footer_text := some "Commit",
      fields := [("Repository", project, true), ("Branch", branch, true)] }

/-- The `for commit in commits` loop of `get_commit_messages`, threading the
author cache through the successive `get_author_info` calls and collecting
the issued profile requests. -/
def processCommits (fetchUser : Option String → Option Profile) (now : Int)
    (brief : Bool) (project branch : String) :
    List Commit → AuthorCache →
      List (Embed × Option String) × AuthorCache × List (Option String)
  | [], cache => ([], cache, [])
  | c :: rest, cache =>
      let au := getAuthorInfo fetchUser now cache c.author_username
      let e := commitEmbed brief project branch c au.1
      let r := processCommits fetchUser now brief project branch rest au.2.1
      ((e, some c.id) :: r.1, r.2.1, au.2.2 ++ r.2.2)

/-- `get_commit_messages(event_body, brief)` (source lines 30-76): emits the
ordered `(embed, commit-id-or-None)` pairs, plus the author cache afterwards
and the profile requests issued.  In brief mode, a commit list longer than
`config['commit_truncation_limit']` is collapsed to one synthetic skip embed
(correlation id `None`, compare URL from `commits[0]` to `commits[-2]`)
followed by the formatting of `commits[-1:]` only. -/
def getCommitMessages (cfg : Config)
    (fetchUser : Option String → Option Profile) (now : Int)
    (cache : AuthorCache) (event : PushEvent) (brief : Bool) :
    List (Embed × Option String) × AuthorCache × List (Option String) :=
  let branch := pyAfterLastSlash event.ref
  let project := event.full_name
  let commits := event.commits
  if brief && commits.length > cfg.commit_truncation_limit then
    let first_hash := (commits.headD defaultCommit).id
    let last_hash := (commits.getD (commits.length - 2) defaultCommit).id
    let skip := mkSkipEmbed commits.length
      (compareUrl project first_hash last_hash)
    let r := processCommits fetchUser now brief project branch
      (commits.drop (commits.length - 1)) cache
    ((skip, none) :: r.1, r.2)
  else
    processCommits fetchUser now brief project branch commits cache

/-! ### Pull-request and issue formatting (source lines 78-118) -/

/-- Python `'\n'.join(l.strip() for l in body.splitlines() if not
l.startswith('<!-'))` — the body transform shared by `get_pr_messages`
(line 94) and `get_issue_messages` (line 114). -/
def stripCommentLines (body : String) : String :=
  String.intercalate "\n"
    (((pySplitlines body).filter (fun l => !(pyStartsWith l "<!-"))).map
      pyStrip)

/-- Fields of a `pull_request` event read by `get_pr_messages`. -/
structure PrEvent where
  number : Nat
  title : String
  created_at : Int
  html_url : String
  user_login : String
  user_html_url : String
  user_avatar_url : String
  repo_full_name : String
  body : String
deriving DecidableEq

/-- `get_pr_messages(event_body)` (source lines 78-98): returns the
`(brief_embed, embed)` pair; the brief copy is taken before the description is
set, the full embed's description is the comment-stripped body. -/
def getPrMessages (e : PrEvent) : Embed × Embed :=
  let base : Embed :=
    { Embed.empty with
        title := some ("#" ++ toString e.number ++ ": " ++ e.title),
        colour := some pullRequestColour,
        url := some e.html_url,
        timestamp := some e.created_at,
        author_name := some e.user_login,
        author_url := some e.user_html_url,
        author_icon := some e.user_avatar_url,
        footer_text := some "Pull Request",
        fields := [("Repository", e.repo_full_name, true)] }
  (base, { base with description := some (stripCommentLines e.body) })

/-- Fields of an `issues` event read by `get_issue_messages`. -/
structure IssueEvent where
  number : Nat
  title : String
  created_at : Int
  html_url : String
  user_login : String
  user_html_url : String
  user_avatar_url : String
  repo_full_name : String
  body : String
deriving DecidableEq

/-- `get_issue_messages(event_body)` (source lines 100-118), structured like
`get_pr_messages`. -/
def getIssueMessages (e : IssueEvent) : Embed × Embed :=
  let base : Embed :=
    { Embed.empty with
        title := some ("#" ++ toString e.number ++ ": " ++ e.title),
        colour := some issueColour,
        url := some e.html_url,
        timestamp := some e.created_at,
        author_name := some e.user_login,
        author_url := some e.user_html_url,
        author_icon := some e.user_avatar_url,
        footer_text := some "Issue",
        fields := [("Repository", e.repo_full_name, true)] }
  (base, { base with description := some (stripCommentLines e.body) })

/-! ### CI result aggregation, `get_ci_results` (source lines 120-208) -/

/-- One element of the jobs response (`name`, `conclusion`). -/
structure Job where
  name : String
  conclusion : String
deriving DecidableEq

/-- One element of `runs['workflow_runs']`, restricted to the fields the
source reads; `created_at`/`updated_at` are the parsed times in seconds. -/
structure Run where
  check_suite_id : Nat
  head_sha : String
  created_at : Int
  updated_at : Int
  full_name : String
  head_branch : String
  html_url : String
  run_number : Nat
deriving DecidableEq

/-- One element of the artifacts response before the source rewrites its
download URL. -/
structure Artifact where
  name : String
  id : Nat
deriving DecidableEq

/-- An artifact after line 188 replaced `archive_download_url` with the
synthesized browser-facing URL; this is the value stored into the nightly
slots and rendered into the artifact list. -/
structure ArtifactOut where
  name : String
  id : Nat
  archive_download_url : String
deriving DecidableEq

/-- `self.state` as touched by `get_ci_results`: the two nightly slots
(`none` models the key being absent). -/
structure CIState where
  nightly_macos : Option ArtifactOut
  nightly_windows : Option ArtifactOut
deriving DecidableEq

/-- Source lines 188-189: `artifact['archive_download_url'] =
f'https://github.com/obsproject/obs-studio/suites/{check_suite_id}/artifacts/{artifact["id"]}'`. -/
def artifactDownloadUrl (check_suite_id aid : Nat) : String :=
  "https://github.com/obsproject/obs-studio/suites/" ++
    toString check_suite_id ++ "/artifacts/" ++ toString aid

/-- The artifact dict after the URL rewrite. -/
def mkArtifactOut (check_suite_id : Nat) (a : Artifact) : ArtifactOut :=
  { name := a.name, id := a.id,
    archive_download_url := artifactDownloadUrl check_suite_id a.id }

/-- Source lines 191-195: the per-artifact nightly-state update.  Only when
the build fully succeeded and ran on `master` is anything written; `'macOS' in
name` wins over the `elif 'win64' in name` branch. -/
def updateNightly (build_success : Bool) (branch : String)
    (check_suite_id : Nat) (st : CIState) (a : Artifact) : CIState :=
  if build_success && branch == "master" then
    if pyContains a.name "macOS" then
      { st with nightly_macos := some (mkArtifactOut check_suite_id a) }
    else if pyContains a.name "win64" then
      { st with nightly_windows := some (mkArtifactOut check_suite_id a) }
    else st
  else st

/-- Source line 156: `failed = sum(i['conclusion'] != 'success' for i in
jobs)`. -/
def failedCount (jobs : List Job) : Nat :=
  (jobs.filter (fun j => j.conclusion != "success")).length

/-- Source line 175: `[job['name'] for job in jobs if job['conclusion'] ==
'success']`. -/
def ciSucceededNames (jobs : List Job) : List String :=
  (jobs.filter (fun j => j.conclusion == "success")).map (fun j => j.name)

/-- Source line 177: `[job['name'] for job in jobs if job['conclusion'] !=
'success']`. -/
def ciFailedNames (jobs : List Job) : List String :=
  (jobs.filter (fun j => j.conclusion != "success")).map (fun j => j.name)

/-- The `(colour, reaction_emote, build_result)` triple chosen by the
`if failed == 0 / elif failed < total_jobs / else` cascade of source lines
159-173. -/
def ciClassify (cfg : Config) (jobs : List Job) : Nat × String × String :=
  if failedCount jobs = 0 then (ciPassedColour, cfg.emotePassed, "succeeded")
  else if failedCount jobs < jobs.length then
    (ciSomeFailedColour, cfg.emotePart, "partially failed")
  else (ciFailedColour, cfg.emoteFailed, "failed")

/-- The one-line summary `message[0]` chosen by the same cascade. -/
def ciSummaryLine (minutes seconds : Int) (jobs : List Job) : String :=
  if failedCount jobs = 0 then
    "All jobs succeeded after " ++ toString minutes ++ "m" ++
      toString seconds ++ "s"
  else if failedCount jobs < jobs.length then
    toString (failedCount jobs) ++ " out of " ++ toString jobs.length ++
      " jobs failed after " ++ toString minutes ++ "m" ++ toString seconds ++
      "s"
  else
    "All jobs failed after " ++ toString minutes ++ "m" ++ toString seconds ++
      "s"

/-- The full `message` list (source lines 163-178): the summary, then a
`**Succeeded:** ...` line when any job's conclusion is `'success'`, then a
`**Failed:** ...` line when any job's conclusion is not `'success'`. -/
def ciMessage (minutes seconds : Int) (jobs : List Job) :
    List String :=
  let m0 := [ciSummaryLine minutes seconds jobs]
  let succeeded := ciSucceededNames jobs
  let m1 :=
    if succeeded.isEmpty then m0
    else m0 ++ ["**Succeeded:** " ++ String.intercalate ", " succeeded]
  let failedNames := ciFailedNames jobs
  if failedNames.isEmpty then m1
  else m1 ++ ["**Failed:** " ++ String.intercalate ", " failedNames]
  -- `ciClassify` and `ciSummaryLine` branch on the same `failed` count, so
  -- together they reproduce lines 159-178 exactly.

/-- `get_ci_results(event_body)` (source lines 120-208).  The three
`get_with_retry` calls are injected as already-decoded results: `none` models
the falsy failure signal (`if not runs: ... return None`), `some` a
well-formed response.  Returns the Python return value (`None`, or the pair
of the embed and the `(commit_hash, message[0], reaction_emote, web_url)`
tuple) together with `self.state` afterwards. -/
def getCiResults (cfg : Config) (check_suite_id : Nat)
    (runsResult : Option (List Run)) (jobsResult : Option (List Job))
    (artifactsResult : Option (List Artifact)) (st : CIState) :
    Option (Embed × String × String × String × String) × CIState :=
  match runsResult with
  | none => (none, st)
  | some workflow_runs =>
    match workflow_runs.find? (fun r => r.check_suite_id == check_suite_id)
      with
    | none => (none, st)
    | some run =>
      let commit_hash := run.head_sha
      let delta := (run.updated_at - run.created_at).emod 86400
      let seconds := delta.emod 60
      let minutes := delta.ediv 60
      let repo := run.full_name
      let branch := run.head_branch
      let web_url := run.html_url
      match jobsResult with
      | none => (none, st)
      | some jobs =>
        let build_success := failedCount jobs == 0
        let cls := ciClassify cfg jobs
        let message := ciMessage minutes seconds jobs
        match artifactsResult with
        | none => (none, st)
        | some artifacts =>
          let st2 := artifacts.foldl
            (updateNightly build_success branch check_suite_id) st
          let artifacts_entries := artifacts.map (fun a =>
            let ao := mkArtifactOut check_suite_id a
            "[" ++ ao.name ++ "](" ++ ao.archive_download_url ++ ")")
          let embed : Embed :=
            { Embed.empty with
                title := some ("Build " ++ toString run.run_number ++ " " ++
                  cls.2.2),
                url := some web_url,
                description := some (String.intercalate "\n" message),
                timestamp := some run.updated_at,
                colour := some cls.1,
                author_name := some "GitHub Actions",
                author_icon :=
                  some "https://cdn.rodney.io/stuff/obsbot/github_actions.png",
                fields := [("Project", repo, true), ("Branch", branch, true),
                  ("Artifacts", String.intercalate "\n" artifacts_entries,
                    false)] }
          (some (embed, commit_hash, message.headD "", cls.2.1, web_url), st2)

/-! ### Concrete sample inputs used by witnesses and counterexamples -/

/-- A sample GitHub user object. -/
def aliceProfile : Profile :=
  { name := some "Alice", login := "alice",
    html_url := "https://github.com/alice",
    avatar_url := "https://avatars.example/alice" }

/-- A sample configuration. -/
def cfg0 : Config :=
  { commit_truncation_limit := 1, workflow_id := "wf",
    github_api_auth := "token t", emotePassed := "p", emotePart := "m",
    emoteFailed := "f" }

/-- A sample commit carrying only an id and a message. -/
def exCommit (i : String) : Commit :=
  { defaultCommit with id := i, message := "title " ++ i }

/-- A sample push event with three commits. -/
def exPush : PushEvent :=
  { ref := "refs/heads/master", full_name := "obsproject/obs-studio",
    commits := [exCommit "aaa", exCommit "bbb", exCommit "ccc"] }

/-- A sample push event with a single commit whose author block carries
neither a username nor a name. -/
def noNamePush : PushEvent :=
  { ref := "refs/heads/master", full_name := "obsproject/obs-studio",
    commits := [defaultCommit] }

/-- A sample workflow run on the default branch. -/
def exRun : Run :=
  { check_suite_id := 7, head_sha := "deadbeef", created_at := 0,
    updated_at := 125, full_name := "obsproject/obs-studio",
    head_branch := "master", html_url := "https://example/run",
    run_number := 9 }

/-- An artifact whose name contains both platform substrings. -/
def bothArtifact : Artifact :=
  { name := "OBS-Studio-27.0.0-macOS-win64.zip", id := 3 }

/-! ### Helper lemmas -/

lemma str_data_append (s t : String) : (s ++ t).data = s.data ++ t.data := by
  cases s; cases t; rfl

lemma getWithRetryAux_all_fail (attempt : Nat → Option PyJson) :
    ∀ (n i : Nat), (∀ j, j < n → attempt (i + j) = none) →
      getWithRetryAux attempt i n = (PyJson.null, n, n)
  | 0, _, _ => rfl
  | n + 1, i, h => by
      have h0 : attempt i = none := by simpa using h 0 (Nat.succ_pos n)
      have ih := getWithRetryAux_all_fail attempt n (i + 1) (fun j hj => by
        have hh := h (j + 1) (by omega)
        simpa [show i + (j + 1) = i + 1 + j by omega] using hh)
      simp [getWithRetryAux, h0, ih]

lemma getWithRetryAux_succeeds (attempt : Nat → Option PyJson) (v : PyJson) :
    ∀ (k n i : Nat), k < n → (∀ j, j < k → attempt (i + j) = none) →
      attempt (i + k) = some v →
      getWithRetryAux attempt i n = (v, k + 1, k)
  | 0, n, i, hk, _, hs => by
      obtain ⟨m, rfl⟩ : ∃ m, n = m + 1 := ⟨n - 1, by omega⟩
      have hs2 : attempt i = some v := by simpa using hs
      simp [getWithRetryAux, hs2]
  | k + 1, n, i, hk, hf, hs => by
      obtain ⟨m, rfl⟩ : ∃ m, n = m + 1 := ⟨n - 1, by omega⟩
      have h0 : attempt i = none := by simpa using hf 0 (by omega)
      have ih := getWithRetryAux_succeeds attempt v k m (i + 1) (by omega)
        (fun j hj => by
          have hh := hf (j + 1) (by omega)
          simpa [show i + (j + 1) = i + 1 + j by omega] using hh)
        (by simpa [show i + (k + 1) = i + 1 + k by omega] using hs)
      simp [getWithRetryAux, h0, ih]

/-! ### Claim theorems -/

/-- C1 (code bug): the freshness check of `get_author_info` is inverted.  For
a cached entry of age 100 seconds — far below `user_cache_max_age` = 604800 —
the method still issues a profile GET, while for a stale entry (age 700000 >
max age) it returns the cached data without any request.  The claim (and the
spec's stated intent) is the opposite polarity: fresh entries should be served
from the cache without a network call. -/
theorem author_cache_freshness_inverted :
    ((100 : Int) - 0 < userCacheMaxAge
      ∧ (getAuthorInfo (fun _ => none) 100 [(some "alice", aliceProfile, 0)]
          (some "alice")).2.2 = [some "alice"])
    ∧ (userCacheMaxAge < (700000 : Int) - 0
      ∧ (getAuthorInfo (fun _ => none) 700000
          [(some "alice", aliceProfile, 0)] (some "alice")).2.2 = []
      ∧ (getAuthorInfo (fun _ => none) 700000
          [(some "alice", aliceProfile, 0)] (some "alice")).1
          = some (aliceProfile, 0)) := by
  refine ⟨⟨by decide, by decide⟩, by decide, by decide, by decide⟩

/-- C2: `get_with_retry` with `retries = N` performs exactly `N` GET attempts
when every attempt fails, sleeping the fixed `retry_interval` after each
failed attempt (N sleeps), and then returns the failure signal (Python
`None`); and when the first `K < N` attempts fail and attempt `K+1` succeeds
with value `v`, it returns `v` after exactly `K+1` attempts and `K` sleeps. -/
theorem get_with_retry_attempt_counts (retries K : Nat)
    (attempt : Nat → Option PyJson) (v : PyJson) :
    ((∀ i, i < retries → attempt i = none) →
      getWithRetry attempt retries = (PyJson.null, retries, retries))
    ∧ (K < retries → (∀ i, i < K → attempt i = none) → attempt K = some v →
      getWithRetry attempt retries = (v, K + 1, K)) := by
  constructor
  · intro h
    exact getWithRetryAux_all_fail attempt retries 0 (fun j hj => by
      simpa using h j hj)
  · intro hK hf hs
    exact getWithRetryAux_succeeds attempt v K retries 0 hK
      (fun j hj => by simpa using hf j hj) (by simpa using hs)

/-- Witness for C2 at `N = 5`: an always-failing fetcher, and a fetcher that
fails twice and then succeeds with the JSON number 42. -/
theorem get_with_retry_attempt_counts_witness :
    getWithRetry (fun _ => none) 5 = (PyJson.null, 5, 5)
    ∧ getWithRetry (fun i => if i < 2 then none else some (PyJson.num 42)) 5
        = (PyJson.num 42, 3, 2) := by
  constructor
  · exact (get_with_retry_attempt_counts 5 0 (fun _ => none) PyJson.null).1
      (fun i _ => rfl)
  · exact (get_with_retry_attempt_counts 5 2
        (fun i => if i < 2 then none else some (PyJson.num 42))
        (PyJson.num 42)).2 (by omega) (fun i hi => by simp [hi]) (by simp)

/-- C7 (counterexample): the failure signal is NOT distinguishable from every
successful payload.  A first-attempt success whose body is the JSON document
`null` makes `get_with_retry` return Python `None` — exactly the value an
all-attempts-failed run returns — so the claim is false for the JSON-null
payload (only the instrumentation counters, which the source discards,
differ). -/
theorem retry_null_payload_indistinct_cex :
    (getWithRetry (fun _ => some PyJson.null) 5).1
        = (getWithRetry (fun _ => none) 5).1
    ∧ (getWithRetry (fun _ => some PyJson.null) 5).2.1 = 1
    ∧ (getWithRetry (fun _ => none) 5).1 = PyJson.null :=
  ⟨rfl, rfl, rfl⟩

/-- C7 (amended): every successfully fetched JSON value OTHER than JSON null
is distinguishable from the failure signal: if attempt `K < N` succeeds with
`v ≠ null` after `K` failures, the returned value is `v` and differs from the
value an all-failing run returns; a successful JSON-null payload, by
contrast, is returned as the very same `None` as the failure signal. -/
theorem retry_failure_signal_nonnull (retries K : Nat)
    (attempt : Nat → Option PyJson) (v : PyJson) (hv : v ≠ PyJson.null)
    (hK : K < retries) (hf : ∀ i, i < K → attempt i = none)
    (hs : attempt K = some v) :
    (getWithRetry attempt retries).1 = v
    ∧ (getWithRetry attempt retries).1
        ≠ (getWithRetry (fun _ => none) retries).1 := by
  have h1 := getWithRetryAux_succeeds attempt v K retries 0 hK
    (fun j hj => by simpa using hf j hj) (by simpa using hs)
  have h2 := getWithRetryAux_all_fail (fun _ => none) retries 0
    (fun _ _ => rfl)
  unfold getWithRetry
  rw [h1, h2]
  exact ⟨rfl, hv⟩

/-- Witness for C7's amended theorem: a first-attempt success carrying the
JSON number 7 is told apart from the exhausted-retries result. -/
theorem retry_failure_signal_nonnull_witness :
    (getWithRetry (fun _ => some (PyJson.num 7)) 5).1 = PyJson.num 7
    ∧ (getWithRetry (fun _ => some (PyJson.num 7)) 5).1
        ≠ (getWithRetry (fun _ => none) 5).1 :=
  retry_failure_signal_nonnull 5 0 (fun _ => some (PyJson.num 7))
    (PyJson.num 7) (fun h => PyJson.noConfusion h) (by omega)
    (fun i hi => absurd hi (by omega)) rfl

/-- C8: for every pull-request and issue event the full descriptor's body is
the payload body with every line starting with `<!-` removed and the
remaining lines stripped and rejoined with newlines; the brief descriptor
carries no body; and the spec's concrete example reduces as stated. -/
theorem pr_issue_body_stripping (pe : PrEvent) (ie : IssueEvent) :
    (getPrMessages pe).2.description = some (stripCommentLines pe.body)
    ∧ (getPrMessages pe).1.description = none
    ∧ (getIssueMessages ie).2.description = some (stripCommentLines ie.body)
    ∧ (getIssueMessages ie).1.description = none
    ∧ stripCommentLines "<!-- comment -->\nReal text\n<!- inline\nMore"
        = "Real text\nMore" :=
  ⟨rfl, rfl, rfl, rfl, by decide⟩

/-- Helper: dropping all but the last element of a nonempty list leaves
exactly its last element. -/
lemma drop_length_sub_one {α : Type} (d : α) :
    ∀ (l : List α), l ≠ [] → l.drop (l.length - 1) = [l.getLastD d]
  | [x], _ => rfl
  | x :: y :: rest, _ => by
      have ih := drop_length_sub_one d (y :: rest) (by simp)
      have hlen : (x :: y :: rest).length - 1 = (y :: rest).length - 1 + 1 := by
        simp
      rw [hlen, List.drop_succ_cons, ih]
      rw [List.getLastD_eq_getLast?, List.getLastD_eq_getLast?,
        List.getLast?_cons_cons]

/-- C5: in brief mode, a push whose commit count exceeds the truncation limit
(so at least two commits, as the claim's second-to-last hash presupposes)
produces exactly two entries: a synthetic skip descriptor with correlation id
`None` and the compare URL from the first to the second-to-last commit hash,
followed by the descriptor of the final commit carrying that commit's hash. -/
theorem commit_truncation_brief (cfg : Config)
    (fetchUser : Option String → Option Profile) (now : Int)
    (cache : AuthorCache) (event : PushEvent)
    (hlen : event.commits.length > cfg.commit_truncation_limit)
    (h2 : 2 ≤ event.commits.length) :
    (getCommitMessages cfg fetchUser now cache event true).1.length = 2
    ∧ ((getCommitMessages cfg fetchUser now cache event true).1.headD
        (Embed.empty, none)).2 = none
    ∧ ((getCommitMessages cfg fetchUser now cache event true).1.headD
        (Embed.empty, none)).1.url
        = some (compareUrl event.full_name
            (event.commits.headD defaultCommit).id
            (event.commits.getD (event.commits.length - 2) defaultCommit).id)
    ∧ ((getCommitMessages cfg fetchUser now cache event true).1.getD 1
        (Embed.empty, none)).2
        = some (event.commits.getLastD defaultCommit).id := by
  have hne : event.commits ≠ [] := by
    intro h
    rw [h] at h2
    exact absurd h2 (by decide)
  have hdrop := drop_length_sub_one defaultCommit event.commits hne
  have hcond : (true && decide
      (event.commits.length > cfg.commit_truncation_limit)) = true := by
    simpa using hlen
  simp only [getCommitMessages, hcond, if_true, hdrop, processCommits]
  refine ⟨rfl, rfl, rfl, rfl⟩

/-- Witness for C5: three commits against a truncation limit of 1. -/
theorem commit_truncation_brief_witness :
    exPush.commits.length > cfg0.commit_truncation_limit
    ∧ 2 ≤ exPush.commits.length
    ∧ ((getCommitMessages cfg0 (fun _ => none) 0 [] exPush true).1.length = 2
      ∧ ((getCommitMessages cfg0 (fun _ => none) 0 [] exPush true).1.headD
          (Embed.empty, none)).2 = none
      ∧ ((getCommitMessages cfg0 (fun _ => none) 0 [] exPush true).1.headD
          (Embed.empty, none)).1.url
          = some (compareUrl exPush.full_name
              (exPush.commits.headD defaultCommit).id
              (exPush.commits.getD (exPush.commits.length - 2)
                defaultCommit).id)
      ∧ ((getCommitMessages cfg0 (fun _ => none) 0 [] exPush true).1.getD 1
          (Embed.empty, none)).2
          = some (exPush.commits.getLastD defaultCommit).id) :=
  ⟨by decide, by decide,
    commit_truncation_brief cfg0 (fun _ => none) 0 [] exPush (by decide)
      (by decide)⟩

/-- C9 (counterexample): for a commit whose author block omits the username
the profile lookup is NOT skipped — `get_author_info(None)` is called and
issues a GET for the literal user `None` — and the placeholder used when no
raw name is present is `'<No Name>'`, not `"No Name"`. -/
theorem commit_author_lookup_cex :
    (getCommitMessages cfg0 (fun _ => none) 0 [] noNamePush false).2.2
        = [none]
    ∧ (getCommitMessages cfg0 (fun _ => none) 0 [] noNamePush false).2.2 ≠ []
    ∧ ((getCommitMessages cfg0 (fun _ => none) 0 [] noNamePush
        false).1.headD (Embed.empty, none)).1.author_name = some "<No Name>"
    ∧ ("<No Name>" : String) ≠ "No Name" := by
  refine ⟨by decide, by decide, by decide, by decide⟩

/-- C9 (amended): for a commit whose author block omits the username,
`get_author_info` is still invoked with the null username and issues one
profile GET for it (against an empty cache); when that lookup yields nothing
— here the request raises — the descriptor's author block falls back to the
raw author name from the payload, and to the literal placeholder
`'<No Name>'` when no (non-empty) raw name is present. -/
theorem commit_author_fallback (cfg : Config)
    (fetchUser : Option String → Option Profile) (now : Int)
    (event : PushEvent) (c : Commit)
    (hc : event.commits = [c]) (hu : c.author_username = none)
    (hf : fetchUser none = none) :
    (getCommitMessages cfg fetchUser now [] event false).2.2 = [none]
    ∧ (∀ nm, c.author_name = some nm → nm ≠ "" →
        ((getCommitMessages cfg fetchUser now [] event false).1.headD
          (Embed.empty, none)).1.author_name = some nm)
    ∧ (c.author_name = none →
        ((getCommitMessages cfg fetchUser now [] event false).1.headD
          (Embed.empty, none)).1.author_name = some "<No Name>") := by
  have hauthor :
      getAuthorInfo fetchUser now [] c.author_username
        = (none, [], [none]) := by
    rw [hu]
    simp [getAuthorInfo, cacheLookup, getAuthorFetch, hf]
  simp only [getCommitMessages, Bool.false_and, if_neg (by simp : ¬False),
    Bool.false_eq_true, if_false, hc, processCommits, hauthor]
  refine ⟨rfl, ?_, ?_⟩
  · intro nm hnm hne
    simp [commitEmbed, hnm, hne]
  · intro hnone
    simp [commitEmbed, hnone]

/-- Witness for C9's amended theorem: one commit carrying only a raw author
name, fetched against an empty cache with a failing profile request. -/
theorem commit_author_fallback_witness :
    ((getCommitMessages cfg0 (fun _ => none) 0 []
        { ref := "refs/heads/master", full_name := "o/r",
          commits := [{ defaultCommit with author_name := some "Jane" }] }
        false).2.2 = [none])
    ∧ ((getCommitMessages cfg0 (fun _ => none) 0 []
        { ref := "refs/heads/master", full_name := "o/r",
          commits := [{ defaultCommit with author_name := some "Jane" }] }
        false).1.headD (Embed.empty, none)).1.author_name = some "Jane" := by
  have h := commit_author_fallback cfg0 (fun _ => none) 0
    { ref := "refs/heads/master", full_name := "o/r",
      commits := [{ defaultCommit with author_name := some "Jane" }] }
    { defaultCommit with author_name := some "Jane" } rfl rfl rfl
  exact ⟨h.1, h.2.1 "Jane" rfl (by decide)⟩

/-- C6: `get_ci_results` yields a null result (and leaves the nightly state
untouched) whenever the workflow-runs fetch returns the failure signal, or no
fetched run's `check_suite_id` equals the event's check-suite id, or the jobs
fetch fails, or the artifacts fetch fails; being a total function, the
embedding returns in every such case rather than raising. -/
theorem ci_results_error_handling (cfg : Config) (check_suite_id : Nat)
    (runsL : List Run) (jr : Option (List Job))
    (ar : Option (List Artifact)) (st : CIState) :
    getCiResults cfg check_suite_id none jr ar st = (none, st)
    ∧ ((∀ r ∈ runsL, r.check_suite_id ≠ check_suite_id) →
        getCiResults cfg check_suite_id (some runsL) jr ar st = (none, st))
    ∧ getCiResults cfg check_suite_id (some runsL) none ar st = (none, st)
    ∧ getCiResults cfg check_suite_id (some runsL) jr none st = (none, st) := by
  refine ⟨rfl, ?_, ?_, ?_⟩
  · intro h
    have hfind : runsL.find?
        (fun r => r.check_suite_id == check_suite_id) = none := by
      rw [List.find?_eq_none]
      intro r hr
      simpa using h r hr
    simp [getCiResults, hfind]
  · cases hfind : runsL.find? (fun r => r.check_suite_id == check_suite_id)
      with
    | none => simp [getCiResults, hfind]
    | some run => simp [getCiResults, hfind]
  · cases hfind : runsL.find? (fun r => r.check_suite_id == check_suite_id)
      with
    | none => simp [getCiResults, hfind]
    | some run =>
        cases jr with
        | none => simp [getCiResults, hfind]
        | some jobs => simp [getCiResults, hfind]

/-- Witness for C6: the check-suite id 999 matches no fetched run. -/
theorem ci_results_error_handling_witness :
    getCiResults cfg0 999 (some [exRun]) (some []) (some [])
        ⟨none, none⟩ = (none, ⟨none, none⟩) :=
  (ci_results_error_handling cfg0 999 [exRun] (some []) (some [])
      ⟨none, none⟩).2.1 (by decide)

/-- C3 (counterexample): an artifact whose name contains both `"macOS"` and
`"win64"` does NOT update the `nightly_windows` slot — the `elif` gives the
`"macOS"` branch precedence — contradicting the claim that each artifact
whose name contains `"win64"` updates (only) the windows slot. -/
theorem nightly_macos_precedence_cex :
    pyContains bothArtifact.name "win64" = true
    ∧ (getCiResults cfg0 7 (some [exRun]) (some [⟨"job", "success"⟩])
        (some [bothArtifact]) ⟨none, none⟩).2.nightly_windows = none
    ∧ (getCiResults cfg0 7 (some [exRun]) (some [⟨"job", "success"⟩])
        (some [bothArtifact]) ⟨none, none⟩).2.nightly_macos
        = some (mkArtifactOut 7 bothArtifact) := by
  refine ⟨by decide, by decide, by decide⟩

/-- C3 (amended): when the three fetches succeed and the event's check suite
is found, the nightly state afterwards is the fold of the per-artifact update
over the artifact list; that update writes nothing unless every job succeeded
and the run's branch is `master`, and under that condition an artifact whose
name contains `"macOS"` updates only the macOS slot, an artifact whose name
contains `"win64"` but not `"macOS"` updates only the windows slot (the
`"macOS"` check takes precedence), and an artifact matching neither substring
leaves both slots unchanged. -/
theorem nightly_state_update (cfg : Config) (check_suite_id : Nat)
    (runsL : List Run) (jobs : List Job) (artifacts : List Artifact)
    (st : CIState) (run : Run)
    (hrun : runsL.find? (fun r => r.check_suite_id == check_suite_id)
      = some run) :
    ((getCiResults cfg check_suite_id (some runsL) (some jobs)
        (some artifacts) st).2
      = artifacts.foldl
          (updateNightly (failedCount jobs == 0) run.head_branch
            check_suite_id) st)
    ∧ (∀ (st2 : CIState) (a : Artifact),
        ¬(failedCount jobs = 0 ∧ run.head_branch = "master") →
        updateNightly (failedCount jobs == 0) run.head_branch check_suite_id
          st2 a = st2)
    ∧ (∀ (st2 : CIState) (a : Artifact), pyContains a.name "macOS" = true →
        updateNightly true "master" check_suite_id st2 a
          = { st2 with
                nightly_macos := some (mkArtifactOut check_suite_id a) })
    ∧ (∀ (st2 : CIState) (a : Artifact), pyContains a.name "macOS" = false →
        pyContains a.name "win64" = true →
        updateNightly true "master" check_suite_id st2 a
          = { st2 with
                nightly_windows := some (mkArtifactOut check_suite_id a) })
    ∧ (∀ (st2 : CIState) (a : Artifact), pyContains a.name "macOS" = false →
        pyContains a.name "win64" = false →
        updateNightly true "master" check_suite_id st2 a = st2) := by
  refine ⟨?_, ?_, ?_, ?_, ?_⟩
  · simp [getCiResults, hrun]
  · intro st2 a hcond
    by_cases hz : failedCount jobs = 0
    · have hbr : run.head_branch ≠ "master" := fun hb => hcond ⟨hz, hb⟩
      have : (run.head_branch == "master") = false := by
        simpa using hbr
      simp [updateNightly, this]
    · have : (failedCount jobs == 0) = false := by
        simpa using hz
      simp [updateNightly, this]
  · intro st2 a hmac
    simp [updateNightly, hmac]
  · intro st2 a hmac hwin
    simp [updateNightly, hmac, hwin]
  · intro st2 a hmac hwin
    simp [updateNightly, hmac, hwin]

/-- Witness for C3's amended theorem: a fully succeeded run on `master` with
one macOS artifact and one win64 artifact. -/
theorem nightly_state_update_witness :
    ((getCiResults cfg0 7 (some [exRun]) (some [⟨"job", "success"⟩])
        (some [⟨"OBS-macOS.dmg", 3⟩, ⟨"OBS-win64.zip", 4⟩])
        ⟨none, none⟩).2
      = [Artifact.mk "OBS-macOS.dmg" 3, Artifact.mk "OBS-win64.zip" 4].foldl
          (updateNightly (failedCount [⟨"job", "success"⟩] == 0)
            exRun.head_branch 7) ⟨none, none⟩)
    ∧ updateNightly true "master" 7 ⟨none, none⟩ ⟨"OBS-win64.zip", 4⟩
        = { nightly_macos := none,
            nightly_windows := some (mkArtifactOut 7 ⟨"OBS-win64.zip", 4⟩) } := by
  have h := nightly_state_update cfg0 7 [exRun] [⟨"job", "success"⟩]
    [⟨"OBS-macOS.dmg", 3⟩, ⟨"OBS-win64.zip", 4⟩] ⟨none, none⟩ exRun
    (by decide)
  exact ⟨h.1, h.2.2.2.1 ⟨none, none⟩ ⟨"OBS-win64.zip", 4⟩ (by decide)
    (by decide)⟩

/-- Helper: indexing into the left part of a string concatenation. -/
lemma data_get_append (s x : String) (k : Nat) (h : k < s.data.length) :
    (s ++ x).data.get? k = s.data.get? k := by
  rw [str_data_append, List.get?_eq_getElem?, List.getElem?_append_left h,
    ← List.get?_eq_getElem?]

/-- Helper: under the conditions in which `get_ci_results` could have emitted
no `Succeeded`/`Failed` line, the summary starts with the character `A`. -/
lemma ciSummaryLine_get0 (minutes seconds : Int) (jobs : List Job)
    (h : failedCount jobs = 0 ∨ failedCount jobs = jobs.length) :
    (ciSummaryLine minutes seconds jobs).data.get? 0 = some 'A' := by
  unfold ciSummaryLine
  by_cases hz : failedCount jobs = 0
  · rw [if_pos hz]
    simp only [String.append_assoc]
    rw [data_get_append _ _ 0 (by decide)]
    decide
  · have hlen : failedCount jobs = jobs.length := h.resolve_left hz
    have hlt : ¬ failedCount jobs < jobs.length := by omega
    rw [if_neg hz, if_neg hlt]
    simp only [String.append_assoc]
    rw [data_get_append _ _ 0 (by decide)]
    decide

/-- Helper: a job with a non-`success` conclusion puts its name into the
failed-names list, so that list is nonempty. -/
lemma ciFailedNames_ne_nil (jobs : List Job) (j : Job) (hj : j ∈ jobs)
    (hc : j.conclusion ≠ "success") :
    (ciFailedNames jobs).isEmpty = false := by
  have hmem : j.name ∈ ciFailedNames jobs :=
    List.mem_map_of_mem _ (List.mem_filter.2 ⟨hj, by simpa using hc⟩)
  cases h2 : (ciFailedNames jobs).isEmpty
  · rfl
  · exact absurd (List.isEmpty_iff.1 h2) (List.ne_nil_of_mem hmem)

/-- Helper: a job with conclusion `success` puts its name into the
succeeded-names list, so that list is nonempty. -/
lemma ciSucceededNames_ne_nil (jobs : List Job) (j : Job) (hj : j ∈ jobs)
    (hc : j.conclusion = "success") :
    (ciSucceededNames jobs).isEmpty = false := by
  have hmem : j.name ∈ ciSucceededNames jobs :=
    List.mem_map_of_mem _ (List.mem_filter.2 ⟨hj, by simp [hc]⟩)
  cases h2 : (ciSucceededNames jobs).isEmpty
  · rfl
  · exact absurd (List.isEmpty_iff.1 h2) (List.ne_nil_of_mem hmem)

/-- Helper: with no succeeded job the succeeded-names list is empty and every
job counts as failed. -/
lemma no_success_facts (jobs : List Job)
    (h : ∀ j ∈ jobs, j.conclusion ≠ "success") :
    ciSucceededNames jobs = [] ∧ failedCount jobs = jobs.length := by
  constructor
  · unfold ciSucceededNames
    rw [List.filter_eq_nil_iff.2 (fun j hj => by simpa using h j hj)]
    rfl
  · unfold failedCount
    rw [List.filter_eq_self.2 (fun j hj => by simpa using h j hj)]

/-- Helper: with no failed job the failed-names list is empty and the failed
count is zero. -/
lemma no_failed_facts (jobs : List Job)
    (h : ∀ j ∈ jobs, j.conclusion = "success") :
    ciFailedNames jobs = [] ∧ failedCount jobs = 0 := by
  have hf : jobs.filter (fun j => j.conclusion != "success") = [] :=
    List.filter_eq_nil_iff.2 (fun j hj => by simp [h j hj])
  constructor
  · unfold ciFailedNames
    rw [hf]
    rfl
  · unfold failedCount
    rw [hf]
    rfl

/-- Helper: the message list written out by branch structure. -/
lemma ciMessage_eq (minutes seconds : Int) (jobs : List Job) :
    ciMessage minutes seconds jobs
      = [ciSummaryLine minutes seconds jobs]
        ++ (if (ciSucceededNames jobs).isEmpty then []
            else ["**Succeeded:** "
              ++ String.intercalate ", " (ciSucceededNames jobs)])
        ++ (if (ciFailedNames jobs).isEmpty then []
            else ["**Failed:** "
              ++ String.intercalate ", " (ciFailedNames jobs)]) := by
  unfold ciMessage
  by_cases hS : (ciSucceededNames jobs).isEmpty <;>
    by_cases hF : (ciFailedNames jobs).isEmpty <;>
      simp [hS, hF]

/-- C4 (amended): the job-outcome trichotomy with its colour and emote
bindings — `F = 0` yields `succeeded`, `0 < F < T` yields `partially failed`,
`F = T` with `T > 0` yields `failed` (for `T = 0` the code takes the `F = 0`
branch) — and the message body starts with the one-line summary, contains a
`Succeeded:` line iff some job succeeded and a `Failed:` line iff some job
failed. -/
theorem ci_classification (cfg : Config) (minutes seconds : Int)
    (jobs : List Job) :
    (failedCount jobs = 0 →
      ciClassify cfg jobs = (ciPassedColour, cfg.emotePassed, "succeeded"))
    ∧ (0 < failedCount jobs → failedCount jobs < jobs.length →
      ciClassify cfg jobs
        = (ciSomeFailedColour, cfg.emotePart, "partially failed"))
    ∧ (failedCount jobs = jobs.length → 0 < jobs.length →
      ciClassify cfg jobs = (ciFailedColour, cfg.emoteFailed, "failed"))
    ∧ (ciMessage minutes seconds jobs).headD ""
        = ciSummaryLine minutes seconds jobs
    ∧ ((∃ j ∈ jobs, j.conclusion = "success") ↔
        ∃ line ∈ ciMessage minutes seconds jobs, ∃ rest,
          line = "**Succeeded:** " ++ rest)
    ∧ ((∃ j ∈ jobs, j.conclusion ≠ "success") ↔
        ∃ line ∈ ciMessage minutes seconds jobs, ∃ rest,
          line = "**Failed:** " ++ rest) := by
  refine ⟨?_, ?_, ?_, ?_, ?_, ?_⟩
  · intro h
    simp [ciClassify, h]
  · intro h1 h2
    unfold ciClassify
    rw [if_neg (by omega), if_pos h2]
  · intro h1 h2
    unfold ciClassify
    rw [if_neg (by omega), if_neg (by omega)]
  · rw [ciMessage_eq]
    by_cases hS : (ciSucceededNames jobs).isEmpty <;>
      by_cases hF : (ciFailedNames jobs).isEmpty <;>
        simp [hS, hF]
  · constructor
    · rintro ⟨j, hj, hc⟩
      have hne := ciSucceededNames_ne_nil jobs j hj hc
      refine ⟨"**Succeeded:** "
        ++ String.intercalate ", " (ciSucceededNames jobs), ?_, ⟨_, rfl⟩⟩
      rw [ciMessage_eq, hne]
      simp
    · rintro ⟨line, hline, rest, hrest⟩
      by_contra hno
      push_neg at hno
      obtain ⟨hnil, hflen⟩ := no_success_facts jobs hno
      have hsummary : line ≠ ciSummaryLine minutes seconds jobs := by
        intro hsum
        have hA := ciSummaryLine_get0 minutes seconds jobs (Or.inr hflen)
        rw [← hsum, hrest] at hA
        rw [data_get_append "**Succeeded:** " _ 0 (by decide)] at hA
        exact absurd hA (by decide)
      rw [ciMessage_eq, hnil] at hline
      by_cases hF : (ciFailedNames jobs).isEmpty
      · rw [if_pos hF] at hline
        simp at hline
        exact hsummary hline
      · rw [if_neg hF] at hline
        simp at hline
        rcases hline with hsum | hfl
        · exact hsummary hsum
        · have h2 := congrArg (fun t : String => t.data.get? 2)
            (hfl.symm.trans hrest)
          dsimp only at h2
          rw [data_get_append "**Failed:** " _ 2 (by decide),
            data_get_append "**Succeeded:** " _ 2 (by decide)] at h2
          exact absurd h2 (by decide)
  · constructor
    · rintro ⟨j, hj, hc⟩
      have hne := ciFailedNames_ne_nil jobs j hj hc
      refine ⟨"**Failed:** "
        ++ String.intercalate ", " (ciFailedNames jobs), ?_, ⟨_, rfl⟩⟩
      rw [ciMessage_eq, hne]
      by_cases hS : (ciSucceededNames jobs).isEmpty <;> simp [hS]
    · rintro ⟨line, hline, rest, hrest⟩
      by_contra hno
      push_neg at hno
      obtain ⟨hnil, hzero⟩ := no_failed_facts jobs hno
      have hsummary : line ≠ ciSummaryLine minutes seconds jobs := by
        intro hsum
        have hA := ciSummaryLine_get0 minutes seconds jobs (Or.inl hzero)
        rw [← hsum, hrest] at hA
        rw [data_get_append "**Failed:** " _ 0 (by decide)] at hA
        exact absurd hA (by decide)
      rw [ciMessage_eq, hnil] at hline
      by_cases hS : (ciSucceededNames jobs).isEmpty
      · rw [if_pos hS] at hline
        simp at hline
        exact hsummary hline
      · rw [if_neg hS] at hline
        simp at hline
        rcases hline with hsum | hsl
        · exact hsummary hsum
        · have h2 := congrArg (fun t : String => t.data.get? 2)
            (hsl.symm.trans hrest)
          dsimp only at h2
          rw [data_get_append "**Succeeded:** " _ 2 (by decide),
            data_get_append "**Failed:** " _ 2 (by decide)] at h2
          exact absurd h2 (by decide)

/-- C4 (counterexample): for the empty job list `F = T = 0`, so the claim's
`F = T → "failed"` clause contradicts the code, which takes the `F = 0`
branch and reports `succeeded`. -/
theorem ci_trichotomy_empty_jobs_cex :
    failedCount [] = ([] : List Job).length
    ∧ (ciClassify cfg0 []).2.2 = "succeeded"
    ∧ (ciClassify cfg0 []).2.2 ≠ "failed" :=
  ⟨rfl, rfl, by decide⟩

/-- Witness for C4's amended theorem: a partially failed run (1 of 3 jobs
succeeded), a fully failed run and a fully succeeded run. -/
theorem ci_classification_witness :
    ciClassify cfg0 [⟨"a", "success"⟩, ⟨"b", "failure"⟩, ⟨"c", "timed_out"⟩]
        = (ciSomeFailedColour, cfg0.emotePart, "partially failed")
    ∧ ciClassify cfg0 [⟨"a", "failure"⟩]
        = (ciFailedColour, cfg0.emoteFailed, "failed")
    ∧ ciClassify cfg0 [⟨"a", "success"⟩]
        = (ciPassedColour, cfg0.emotePassed, "succeeded") := by
  have h1 := ci_classification cfg0 0 0
    [⟨"a", "success"⟩, ⟨"b", "failure"⟩, ⟨"c", "timed_out"⟩]
  have h2 := ci_classification cfg0 0 0 [⟨"a", "failure"⟩]
  have h3 := ci_classification cfg0 0 0 [⟨"a", "success"⟩]
  exact ⟨h1.2.1 (by decide) (by decide), h2.2.2.1 (by decide) (by decide),
    h3.1 (by decide)⟩

/-- Helper: the failed and succeeded job counts partition the job list. -/
lemma length_filter_partition :
    ∀ jobs : List Job,
      failedCount jobs
          + (jobs.filter (fun j => j.conclusion == "success")).length
        = jobs.length
  | [] => rfl
  | j :: rest => by
      have ih := length_filter_partition rest
      unfold failedCount at *
      by_cases h : j.conclusion = "success" <;>
        simp [List.filter_cons, h] <;> omega

/-- C10: a job counts as failed exactly when its conclusion is not the string
`"success"`: failed and succeeded counts partition the list, every
non-`success` job (skipped, cancelled, ...) lands in the `Failed:` name list,
a run of one succeeded and one skipped job is classified `partially failed`,
and skipped/cancelled jobs are counted by `failedCount`. -/
theorem ci_nonsuccess_counted_failed (jobs : List Job) :
    (failedCount jobs
        + (jobs.filter (fun j => j.conclusion == "success")).length
      = jobs.length)
    ∧ (∀ j ∈ jobs, j.conclusion ≠ "success" → j.name ∈ ciFailedNames jobs)
    ∧ ciClassify cfg0 [⟨"macos", "success"⟩, ⟨"win", "skipped"⟩]
        = (ciSomeFailedColour, cfg0.emotePart, "partially failed")
    ∧ failedCount [⟨"a", "success"⟩, ⟨"b", "skipped"⟩, ⟨"c", "cancelled"⟩]
        = 2 := by
  refine ⟨length_filter_partition jobs, ?_, by decide, by decide⟩
  intro j hj hc
  exact List.mem_map_of_mem _ (List.mem_filter.2 ⟨hj, by simpa using hc⟩)

/-- Witness for C10: the skipped job's name appears in the failed-name list
of a run containing one succeeded and one skipped job. -/
theorem ci_nonsuccess_counted_failed_witness :
    ("win" : String)
      ∈ ciFailedNames [⟨"macos", "success"⟩, ⟨"win", "skipped"⟩] :=
  (ci_nonsuccess_counted_failed
    [⟨"macos", "success"⟩, ⟨"win", "skipped"⟩]).2.1
    ⟨"win", "skipped"⟩ (by decide) (by decide)

end ObsBot


